import Mathlib

/-!
Verification of the node/resource-binding layer of the rendy frame graph
(`graph/src/node/mod.rs`): node builders, the scheduler-facing chain record,
resolution of declared resources against a computed synchronization schedule,
and the type-erased node/description facade.

Opaque external payloads (backend states, clear values, semaphores, submits)
are modelled as `Nat`; the logic under verification never inspects them.
-/

namespace Rendy

/-- Backend buffer access state (`chain::BufferState`); opaque payload. -/
abbrev BufferState := Nat

/-- Backend image access state (`chain::ImageState`); opaque payload. -/
abbrev ImageState := Nat

/-- A configured clear value (`gfx_hal::command::ClearValue`); opaque payload. -/
abbrev ClearValue := Nat

/-- A concrete backend buffer resource (`resource::Buffer<B>`); opaque payload. -/
abbrev Buffer := Nat

/-- A concrete backend image resource (`resource::Image<B>`); opaque payload. -/
abbrev Image := Nat

/-- A queue family id (`gfx_hal::queue::QueueFamilyId`, a `usize` newtype). -/
abbrev QueueFamilyId := Nat

/-- A queue-family capability value (`gfx_hal` queue type); opaque payload.
Whether a capability satisfies a node's requirement is an abstract predicate
carried by the description (`Supports::supports(..).is_some()` in the source). -/
abbrev Capability := Nat

/-- A semaphore handle (`B::Semaphore`); opaque payload. -/
abbrev Semaphore := Nat

/-- A pipeline stage flag (`gfx_hal::pso::PipelineStage`); opaque payload. -/
abbrev PipelineStage := Nat

/-- A fence handle (`B::Fence`); opaque payload. -/
abbrev Fence := Nat

/-- The opaque per-frame submit payload returned by the typed `Node::run`. -/
abbrev Submit := Nat

/-- A build error (`failure::Error`); opaque payload. -/
abbrev BuildError := Nat

/-- A submission identity in the schedule (`chain::SubmissionId`); opaque. -/
abbrev SubmissionId := Nat

/-- Identifier of a buffer in the graph's resource universe (`BufferId(usize)`). -/
structure BufferId where
  id : Nat
  deriving DecidableEq, Repr

/-- Identifier of an image in the graph's resource universe (`ImageId(usize)`). -/
structure ImageId where
  id : Nat
  deriving DecidableEq, Repr

/-- Unified scheduler resource key (`chain::Id(usize)`). -/
structure ChainId where
  id : Nat
  deriving DecidableEq, Repr

/-- The resource key of a declared buffer identifier: its raw value
(`chain::Id(id.0)` in `NodeBuilder::chain` and `NodeBuilder::build`). -/
def bufferKey (bid : BufferId) : ChainId :=
  ChainId.mk bid.id

/-- The resource key of a declared image identifier: its value offset by the
total buffer count (`chain::Id(id.0 + buffers)` in `NodeBuilder::chain`,
`chain::Id(index + buffers.len())` in `NodeBuilder::build`). -/
def imageKey (bufferCount : Nat) (iid : ImageId) : ChainId :=
  ChainId.mk (iid.id + bufferCount)

/-- Buffer shared between nodes (`NodeBuffer`): a resource reference with the
resolved state for this node.  The struct has no clear field. -/
structure NodeBuffer where
  buffer : Buffer
  state : BufferState
  deriving DecidableEq, Repr

/-- Image shared between nodes (`NodeImage`): a resource reference, resolved
state, and an optional clear value for this node. -/
structure NodeImage where
  image : Image
  state : ImageState
  clear : Option ClearValue
  deriving DecidableEq, Repr

/-- The live typed node (`Node` trait object payload).  The per-frame `run`
result is modelled as a fixed opaque submit: the claims never inspect it. -/
structure Node where
  payload : Nat
  run : Submit
  deriving DecidableEq, Repr

/-- The typed node description (`NodeDesc` trait).  `supportedBy` is the
abstract predicate deciding whether a queue-family capability satisfies the
node's required capability (the source's
`Supports::<Capability>::supports(&family.capability()).is_some()`);
`buffers`/`images` are the declared required states; `build` is the typed
build operation (factory and auxiliary data are opaque and omitted). -/
structure NodeDesc where
  supportedBy : Capability → Bool
  buffers : List BufferState
  images : List ImageState
  build : QueueFamilyId → List NodeBuffer → List NodeImage → Except BuildError Node

/-- A queue family as the factory exposes it (`command::Family`): its
capability and its device-assigned index. -/
structure Family where
  capability : Capability
  index : QueueFamilyId
  deriving DecidableEq, Repr

/-- Type-erased family selection (`AnyNodeDesc::family` for `(N,)`): the first
family in input order whose capability satisfies the node's requirement,
mapped to its index; `none` when no family qualifies. -/
def AnyNodeDesc.family (desc : NodeDesc) (families : List Family) : Option QueueFamilyId :=
  (families.find? fun f => desc.supportedBy f.capability).map Family.index

/-- The type-erased node (`Box<dyn AnyNode>`), a uniform wrapper around the
typed node (the `(N,)` tuple impl). -/
structure AnyNode where
  node : Node
  deriving DecidableEq, Repr

/-- Type-erased build (`AnyNodeDesc::build` for `(N,)`): forwards to the typed
`NodeDesc::build` (the `?` operator propagates its error unchanged) and wraps
the node for uniform storage (`Ok(Box::new((node,)))`). -/
def AnyNodeDesc.build (desc : NodeDesc) (family : QueueFamilyId)
    (buffers : List NodeBuffer) (images : List NodeImage) :
    Except BuildError AnyNode :=
  match desc.build family buffers images with
  | Except.ok node => Except.ok (AnyNode.mk node)
  | Except.error e => Except.error e

/-- The scheduler-facing node record (`chain::Node`). -/
structure ChainNode where
  id : Nat
  family : QueueFamilyId
  dependencies : List Nat
  buffers : List (ChainId × BufferState)
  images : List (ChainId × ImageState)
  deriving DecidableEq, Repr

/-- The builder (`NodeBuilder`): the boxed description plus the ordered
declared buffer ids, image ids and dependency indices. -/
structure NodeBuilder where
  desc : NodeDesc
  buffers : List BufferId
  images : List ImageId
  dependencies : List Nat

/-- `NodeBuilder::add_buffer`: appends the id, preserving order. -/
def NodeBuilder.add_buffer (b : NodeBuilder) (bid : BufferId) : NodeBuilder :=
  { b with buffers := b.buffers ++ [bid] }

/-- `NodeBuilder::add_image`: appends the id, preserving order. -/
def NodeBuilder.add_image (b : NodeBuilder) (iid : ImageId) : NodeBuilder :=
  { b with images := b.images ++ [iid] }

/-- `NodeBuilder::add_dependency`: appends the node index, preserving order. -/
def NodeBuilder.add_dependency (b : NodeBuilder) (dep : Nat) : NodeBuilder :=
  { b with dependencies := b.dependencies ++ [dep] }

/-- `NodeBuilder::chain(id, factory, buffers)`: produces the scheduler-facing
record.  The factory's family list is passed directly.  The source calls
`.unwrap()` on the family lookup, a fatal panic when no family qualifies,
modelled as `none`.  Buffer ids are zipped with the description's declared
buffer states under raw keys; image ids are zipped with the declared image
states under keys offset by the total buffer count. -/
def NodeBuilder.chain (builder : NodeBuilder) (id : Nat) (families : List Family)
    (bufferCount : Nat) : Option ChainNode :=
  match AnyNodeDesc.family builder.desc families with
  | none => none
  | some fam =>
    some
      { id := id
        family := fam
        dependencies := builder.dependencies
        buffers := (builder.buffers.map bufferKey).zip builder.desc.buffers
        images := (builder.images.map (imageKey bufferCount)).zip builder.desc.images }

/-- A queue identity (`chain::QueueId`): the family it belongs to and the
queue index within the family. -/
structure QueueId where
  family : QueueFamilyId
  index : Nat
  deriving DecidableEq, Repr

/-- The GPU submission record assembled in `AnyNode::run`
(`command::Submission { waits, signals, submits }`). -/
structure Submission where
  waits : List (Semaphore × PipelineStage)
  signals : List Semaphore
  submits : Option Submit
  deriving DecidableEq, Repr

/-- What `factory.family_mut(qid.family()).submit(qid.index(), .., fence)`
receives: the target family and queue index, the assembled submission, and
the optional fence. -/
structure QueueSubmit where
  family : QueueFamilyId
  queueIndex : Nat
  submission : Submission
  fence : Option Fence
  deriving DecidableEq, Repr

/-- Type-erased run (`AnyNode::run` for `(N,)`): obtains the submit from the
typed `Node::run`, then hands the device queue identified by `qid` a
submission made of exactly the caller's waits, signals and fence together
with that submit. -/
def AnyNode.run (n : AnyNode) (qid : QueueId)
    (waits : List (Semaphore × PipelineStage)) (signals : List Semaphore)
    (fence : Option Fence) : QueueSubmit :=
  let submit := n.node.run
  { family := qid.family
    queueIndex := qid.index
    submission := { waits := waits, signals := signals, submits := some submit }
    fence := fence }

/-- Modelled from the spec: one synchronization link of a buffer's ordered
access chain (`chain::Link`, from the external scheduler, not under `src/`);
it exposes, for a given submission identity, the resolved access state
(`link.submission_state(sid)`). -/
structure BufferLink where
  state : SubmissionId → BufferState

/-- Modelled from the spec: one synchronization link of an image's ordered
access chain (`chain::Link`, from the external scheduler, not under `src/`). -/
structure ImageLink where
  state : SubmissionId → ImageState

/-- Modelled from the spec: the scheduler's per-resource chains
(`chain::Chains`): a map from resource key to the resource's ordered link
list.  The source indexes the map (`chains.buffers[&id]`), a fatal panic on
a missing key, modelled as `none`. -/
structure Chains where
  buffers : ChainId → Option (List BufferLink)
  images : ChainId → Option (List ImageLink)

/-- Modelled from the spec: this node's submission in the computed schedule
(`chain::Submission<SyncData>`, not under `src/`): its identity and, per
resource key, this node's resolved position index within the resource's
ordered link list (`submission.resource_link_index(id)`). -/
structure ChainSubmission where
  id : SubmissionId
  resourceLinkIndex : ChainId → Nat

/-- Collection of per-element resolutions (`.iter().map(..).collect()` where
each element's resolution can panic): fails as soon as any element fails. -/
def collectResolved (f : α → Option β) : List α → Option (List β)
  | [] => some []
  | a :: l =>
    match f a, collectResolved f l with
    | some b, some bs => some (b :: bs)
    | _, _ => none

/-- Resolution of one declared buffer id in `NodeBuilder::build`: index the
graph's buffer slice by the raw id (panic if out of range), look up the
resource's chain by the raw key (panic if missing), index its link list by
this node's resolved link index (panic if out of range), and take the state
for this submission.  All panics are modelled as `none`. -/
def resolveBuffer (buffers : List Buffer) (chains : Chains)
    (submission : ChainSubmission) (bid : BufferId) : Option NodeBuffer :=
  match buffers[bid.id]?, chains.buffers (bufferKey bid) with
  | some buf, some links =>
    match links[submission.resourceLinkIndex (bufferKey bid)]? with
    | some link => some { buffer := buf, state := link.state submission.id }
    | none => none
  | _, _ => none

/-- Resolution of one declared image id in `NodeBuilder::build`: like
`resolveBuffer` but under the key offset by `buffers.len()`, and carrying
the image's configured clear value exactly when this node's resolved link
index for that key is zero (`if submission.resource_link_index(id) == 0`). -/
def resolveImage (buffers : List Buffer)
    (images : List (Image × Option ClearValue)) (chains : Chains)
    (submission : ChainSubmission) (iid : ImageId) : Option NodeImage :=
  match images[iid.id]?, chains.images (imageKey buffers.length iid) with
  | some img, some links =>
    match links[submission.resourceLinkIndex (imageKey buffers.length iid)]? with
    | some link =>
      some
        { image := img.1
          state := link.state submission.id
          clear :=
            if submission.resourceLinkIndex (imageKey buffers.length iid) = 0 then
              img.2
            else
              none }
    | none => none
  | _, _ => none

/-- `NodeBuilder::build`: resolve every declared buffer id in order, then
every declared image id in order, and pass the two binding lists to the
type-erased description's `build`.  A failed resolution (out-of-range index
or missing chain) is a fatal panic in the source, modelled as the outer
`none`; `some` wraps the forwarded build result. -/
def NodeBuilder.build (builder : NodeBuilder) (family : QueueFamilyId)
    (buffers : List Buffer) (images : List (Image × Option ClearValue))
    (chains : Chains) (submission : ChainSubmission) :
    Option (Except BuildError AnyNode) :=
  match collectResolved (resolveBuffer buffers chains submission) builder.buffers,
      collectResolved (resolveImage buffers images chains submission) builder.images with
  | some nbufs, some nimgs => some (AnyNodeDesc.build builder.desc family nbufs nimgs)
  | _, _ => none

/-! Concrete fixtures used to evaluate the development on closed inputs. -/

/-- Example description: requires capability value 2, declares one buffer
state and one image state, and builds a node recording its inputs' shape. -/
def exDesc : NodeDesc :=
  { supportedBy := fun c => c == 2
    buffers := [10]
    images := [20]
    build := fun fam nbufs nimgs =>
      Except.ok (Node.mk (fam + nbufs.length + nimgs.length) 0) }

/-- Example description whose typed build always fails with error 7. -/
def exFailDesc : NodeDesc :=
  { supportedBy := fun _ => false
    buffers := []
    images := []
    build := fun _ _ _ => Except.error 7 }

/-- Example family list: capability 1 at index 4, capability 2 at index 9. -/
def exFamilies : List Family :=
  [Family.mk 1 4, Family.mk 2 9]

/-- Example builder: one declared buffer id, one declared image id, one
dependency. -/
def exBuilder : NodeBuilder :=
  { desc := exDesc
    buffers := [BufferId.mk 0]
    images := [ImageId.mk 0]
    dependencies := [3] }

/-- Example builder with mismatched declaration counts: two buffer ids
against one declared buffer state, zero image ids against one image state. -/
def exMismatchBuilder : NodeBuilder :=
  { desc := exDesc
    buffers := [BufferId.mk 0, BufferId.mk 1]
    images := []
    dependencies := [] }

/-- Example schedule chains: buffer key 0 has a one-link chain, image key 1
has a two-link chain. -/
def exChains : Chains :=
  { buffers := fun k => if k.id = 0 then some [BufferLink.mk fun _ => 100] else none
    images := fun k =>
      if k.id = 1 then some [ImageLink.mk fun _ => 200, ImageLink.mk fun _ => 201]
      else none }

/-- Example submission: identity 5, link index 0 for every resource key. -/
def exSubmission : ChainSubmission :=
  ChainSubmission.mk 5 (fun _ => 0)

/-- Example graph buffer slice: one buffer. -/
def exBuffers : List Buffer :=
  [7]

/-- Example graph image slice: one image with configured clear value 99. -/
def exImages : List (Image × Option ClearValue) :=
  [(8, some 99)]

/-! Helper lemmas about the collection of per-element resolutions and about
positional pairing.  These are shared infrastructure, not claim theorems. -/

theorem collectResolved_spec (f : α → Option β) :
    ∀ (l : List α) (res : List β), collectResolved f l = some res →
      res.length = l.length ∧ ∀ i : Nat, res[i]? = (l[i]?).bind f := by
  intro l
  induction l with
  | nil =>
    intro res h
    simp [collectResolved] at h
    subst h
    refine ⟨rfl, ?_⟩
    intro i
    simp
  | cons a l ih =>
    intro res h
    cases hfa : f a with
    | none => simp [collectResolved, hfa] at h
    | some b =>
      cases hcl : collectResolved f l with
      | none => simp [collectResolved, hfa, hcl] at h
      | some bs =>
        simp [collectResolved, hfa, hcl] at h
        subst h
        obtain ⟨hlen, hget⟩ := ih bs hcl
        refine ⟨by simp [hlen], ?_⟩
        intro i
        cases i with
        | zero => simp [hfa]
        | succ n => simpa using hget n

theorem collectResolved_isSome (f : α → Option β) :
    ∀ l : List α, (∀ a ∈ l, (f a).isSome) → ∃ res, collectResolved f l = some res := by
  intro l
  induction l with
  | nil => intro _; exact ⟨[], rfl⟩
  | cons a l ih =>
    intro h
    obtain ⟨res, hres⟩ := ih fun x hx => h x (List.mem_cons_of_mem a hx)
    have ha := h a (List.mem_cons_self a l)
    cases hfa : f a with
    | none => simp [hfa] at ha
    | some b => exact ⟨b :: res, by simp [collectResolved, hfa, hres]⟩

theorem collectResolved_none_of_mem (f : α → Option β) :
    ∀ (l : List α) (a : α), a ∈ l → f a = none → collectResolved f l = none := by
  intro l
  induction l with
  | nil => intro a ha; cases ha
  | cons x l ih =>
    intro a ha hfa
    rcases List.mem_cons.mp ha with h | h
    · subst h
      simp [collectResolved, hfa]
    · have := ih a h hfa
      cases hfx : f x <;> simp [collectResolved, hfx, this]

theorem zip_getElem_some {α β : Type _} :
    ∀ (l : List α) (l' : List β) (i : Nat) (a : α) (b : β),
      l[i]? = some a → l'[i]? = some b → (l.zip l')[i]? = some (a, b) := by
  intro l
  induction l with
  | nil => intro l' i a b h; simp at h
  | cons x l ih =>
    intro l' i a b h h'
    cases l' with
    | nil => simp at h'
    | cons y l' =>
      cases i with
      | zero =>
        simp at h h'
        simp [h, h']
      | succ n =>
        simp at h h'
        simpa using ih l' n a b h h'

theorem find_first_qualifying (p : α → Bool) :
    ∀ (pre : List α) (x : α) (post : List α),
      (∀ g ∈ pre, p g = false) → p x = true →
      List.find? p (pre ++ x :: post) = some x := by
  intro pre
  induction pre with
  | nil => intro x post _ hx; simp [List.find?, hx]
  | cons g pre ih =>
    intro x post hpre hx
    have hg : p g = false := hpre g (List.mem_cons_self g pre)
    simp only [List.cons_append, List.find?]
    rw [hg]
    exact ih x post (fun y hy => hpre y (List.mem_cons_of_mem g hy)) hx

/-- Claim C4: for every list of queue families and every node description,
`family()` returns `some` of the index of the first family in input order
whose capability satisfies the node's required capability, and `none` when
no family in the list qualifies. -/
theorem family_selects_first_qualifying (desc : NodeDesc) (families : List Family) :
    (AnyNodeDesc.family desc families = none ↔
      ∀ f ∈ families, desc.supportedBy f.capability = false) ∧
    (∀ (pre : List Family) (f : Family) (post : List Family),
      families = pre ++ f :: post →
      (∀ g ∈ pre, desc.supportedBy g.capability = false) →
      desc.supportedBy f.capability = true →
      AnyNodeDesc.family desc families = some f.index) := by
  constructor
  · unfold AnyNodeDesc.family
    rw [Option.map_eq_none']
    rw [List.find?_eq_none]
    simp
  · intro pre f post hsplit hpre hf
    unfold AnyNodeDesc.family
    rw [hsplit, find_first_qualifying _ pre f post hpre hf]
    rfl

/-- Claim C7: `chain` fails fatally exactly when no queue family satisfies
the node's required capability; when some family qualifies, it returns a
record whose family field is the selected family id. -/
theorem chain_fatal_iff_unschedulable (builder : NodeBuilder) (id : Nat)
    (families : List Family) (bufferCount : Nat) :
    (NodeBuilder.chain builder id families bufferCount = none ↔
      ∀ f ∈ families, builder.desc.supportedBy f.capability = false) ∧
    (∀ fam, AnyNodeDesc.family builder.desc families = some fam →
      ∃ r, NodeBuilder.chain builder id families bufferCount = some r ∧
        r.family = fam) := by
  constructor
  · constructor
    · intro h
      unfold NodeBuilder.chain at h
      cases hfam : AnyNodeDesc.family builder.desc families with
      | none =>
        unfold AnyNodeDesc.family at hfam
        rw [Option.map_eq_none'] at hfam
        rw [List.find?_eq_none] at hfam
        simpa using hfam
      | some fam => rw [hfam] at h; simp at h
    · intro h
      unfold NodeBuilder.chain
      have hfam : AnyNodeDesc.family builder.desc families = none := by
        unfold AnyNodeDesc.family
        rw [Option.map_eq_none']
        rw [List.find?_eq_none]
        simpa using h
      rw [hfam]
  · intro fam hfam
    unfold NodeBuilder.chain
    rw [hfam]
    exact ⟨_, rfl, rfl⟩

/-- Claim C3: the scheduler-facing record from `chain(id, factory,
total_buffer_count)` carries the dependency list unchanged, pairs declared
buffer id `i` with declared buffer state `i` under the raw value as key, and
pairs declared image id `i` with declared image state `i` under the value
plus `total_buffer_count` as key. -/
theorem chain_record_pairs_positionally (builder : NodeBuilder) (id : Nat)
    (families : List Family) (bufferCount : Nat) (fam : QueueFamilyId) :
    AnyNodeDesc.family builder.desc families = some fam →
    ∃ r, NodeBuilder.chain builder id families bufferCount = some r ∧
      r.id = id ∧
      r.family = fam ∧
      r.dependencies = builder.dependencies ∧
      (∀ (i : Nat) (bid : BufferId) (st : BufferState),
        builder.buffers[i]? = some bid →
        builder.desc.buffers[i]? = some st →
        r.buffers[i]? = some (ChainId.mk bid.id, st)) ∧
      (∀ (i : Nat) (iid : ImageId) (st : ImageState),
        builder.images[i]? = some iid →
        builder.desc.images[i]? = some st →
        r.images[i]? = some (ChainId.mk (iid.id + bufferCount), st)) := by
  intro hfam
  unfold NodeBuilder.chain
  rw [hfam]
  refine ⟨_, rfl, rfl, rfl, rfl, ?_, ?_⟩
  · intro i bid st hb hs
    have hmap : (builder.buffers.map bufferKey)[i]? = some (bufferKey bid) := by
      simp [hb]
    exact zip_getElem_some _ _ i _ _ hmap hs
  · intro i iid st hi hs
    have hmap : (builder.images.map (imageKey bufferCount))[i]? =
        some (imageKey bufferCount iid) := by
      simp [hi]
    exact zip_getElem_some _ _ i _ _ hmap hs

/-- Claim C10: when the number of declared buffer identifiers differs from
the number of declared buffer states (likewise for images), `chain` does not
fail for that reason: it pairs positionally and truncates each list to the
shorter of the two lengths. -/
theorem chain_truncates_to_shorter (builder : NodeBuilder) (id : Nat)
    (families : List Family) (bufferCount : Nat) (fam : QueueFamilyId) :
    AnyNodeDesc.family builder.desc families = some fam →
    ∃ r, NodeBuilder.chain builder id families bufferCount = some r ∧
      r.buffers.length = min builder.buffers.length builder.desc.buffers.length ∧
      r.images.length = min builder.images.length builder.desc.images.length := by
  intro hfam
  unfold NodeBuilder.chain
  rw [hfam]
  exact ⟨_, rfl, by simp [List.length_zip], by simp [List.length_zip]⟩

/-- Claim C5: when every buffer identifier's raw value is strictly below the
total buffer count, resource keys never collide: no buffer key equals any
image key, and distinct identifiers of the same kind get distinct keys. -/
theorem resource_keys_collision_free (bufferCount : Nat) (b b' : BufferId)
    (i i' : ImageId) :
    (b.id < bufferCount → bufferKey b ≠ imageKey bufferCount i) ∧
    (b ≠ b' → bufferKey b ≠ bufferKey b') ∧
    (i ≠ i' → imageKey bufferCount i ≠ imageKey bufferCount i') := by
  refine ⟨?_, ?_, ?_⟩
  · intro hlt h
    have : b.id = i.id + bufferCount := congrArg ChainId.id h
    omega
  · intro hne h
    have : b.id = b'.id := congrArg ChainId.id h
    cases b; cases b'
    simp_all
  · intro hne h
    have : i.id + bufferCount = i'.id + bufferCount := congrArg ChainId.id h
    have : i.id = i'.id := by omega
    cases i; cases i'
    simp_all

/-- Claim C2: the buffer bindings `NodeBuilder::build` passes to
`Description::build` have exactly the length and order of the declared
buffer identifiers, the binding at position `i` being the resolution of the
identifier at position `i`; likewise for images. -/
theorem build_bindings_match_declarations (builder : NodeBuilder)
    (family : QueueFamilyId) (bufs : List Buffer)
    (imgs : List (Image × Option ClearValue)) (chains : Chains)
    (submission : ChainSubmission) (r : Except BuildError AnyNode) :
    NodeBuilder.build builder family bufs imgs chains submission = some r →
    ∃ nbufs nimgs,
      r = AnyNodeDesc.build builder.desc family nbufs nimgs ∧
      nbufs.length = builder.buffers.length ∧
      nimgs.length = builder.images.length ∧
      (∀ i : Nat,
        nbufs[i]? = (builder.buffers[i]?).bind (resolveBuffer bufs chains submission)) ∧
      (∀ i : Nat,
        nimgs[i]? = (builder.images[i]?).bind (resolveImage bufs imgs chains submission)) := by
  intro h
  unfold NodeBuilder.build at h
  cases hb : collectResolved (resolveBuffer bufs chains submission) builder.buffers with
  | none => rw [hb] at h; simp at h
  | some nbufs =>
    cases hi : collectResolved (resolveImage bufs imgs chains submission) builder.images with
    | none => rw [hb, hi] at h; simp at h
    | some nimgs =>
      rw [hb, hi] at h
      simp at h
      obtain ⟨hblen, hbget⟩ := collectResolved_spec _ _ _ hb
      obtain ⟨hilen, higet⟩ := collectResolved_spec _ _ _ hi
      exact ⟨nbufs, nimgs, h.symm, hblen, hilen, hbget, higet⟩

/-- Claim C6: when a declared resource's resolved link index is out of range
for that resource's link list in the schedule, `NodeBuilder::build` is fatal
(yields no result at all, never a defaulted binding); when every declared
resource resolves, `build` reaches `Description::build` with the fully
resolved binding lists. -/
theorem build_fatal_on_out_of_range_link (builder : NodeBuilder)
    (family : QueueFamilyId) (bufs : List Buffer)
    (imgs : List (Image × Option ClearValue)) (chains : Chains)
    (submission : ChainSubmission) :
    (∀ bid ∈ builder.buffers, ∀ links,
      chains.buffers (bufferKey bid) = some links →
      links.length ≤ submission.resourceLinkIndex (bufferKey bid) →
      NodeBuilder.build builder family bufs imgs chains submission = none) ∧
    (∀ iid ∈ builder.images, ∀ links,
      chains.images (imageKey bufs.length iid) = some links →
      links.length ≤ submission.resourceLinkIndex (imageKey bufs.length iid) →
      NodeBuilder.build builder family bufs imgs chains submission = none) ∧
    ((∀ bid ∈ builder.buffers, (resolveBuffer bufs chains submission bid).isSome) →
      (∀ iid ∈ builder.images, (resolveImage bufs imgs chains submission iid).isSome) →
      ∃ nbufs nimgs,
        NodeBuilder.build builder family bufs imgs chains submission =
          some (AnyNodeDesc.build builder.desc family nbufs nimgs)) := by
  refine ⟨?_, ?_, ?_⟩
  · intro bid hmem links hlinks hle
    have hres : resolveBuffer bufs chains submission bid = none := by
      unfold resolveBuffer
      have hnone : links[submission.resourceLinkIndex (bufferKey bid)]? = none :=
        List.getElem?_eq_none hle
      cases hbuf : bufs[bid.id]? <;> simp [hbuf, hlinks, hnone]
    have hcol := collectResolved_none_of_mem
      (resolveBuffer bufs chains submission) builder.buffers bid hmem hres
    unfold NodeBuilder.build
    rw [hcol]
  · intro iid hmem links hlinks hle
    have hres : resolveImage bufs imgs chains submission iid = none := by
      unfold resolveImage
      have hnone : links[submission.resourceLinkIndex (imageKey bufs.length iid)]? = none :=
        List.getElem?_eq_none hle
      cases himg : imgs[iid.id]? <;> simp [himg, hlinks, hnone]
    have hcol := collectResolved_none_of_mem
      (resolveImage bufs imgs chains submission) builder.images iid hmem hres
    unfold NodeBuilder.build
    rw [hcol]
    cases collectResolved (resolveBuffer bufs chains submission) builder.buffers <;> rfl
  · intro hbufs himgs
    obtain ⟨nbufs, hb⟩ := collectResolved_isSome _ _ hbufs
    obtain ⟨nimgs, hi⟩ := collectResolved_isSome _ _ himgs
    refine ⟨nbufs, nimgs, ?_⟩
    unfold NodeBuilder.build
    rw [hb, hi]

/-- Claim C1: in the bindings produced by `NodeBuilder::build`, an image
binding carries the image's configured clear value exactly when this node's
resolved link index for the image's offset resource key is zero — any
nonzero link index yields no clear value — and a buffer binding has no room
for a clear value at all (it is determined by its buffer and state). -/
theorem image_clear_iff_link_index_zero (builder : NodeBuilder)
    (family : QueueFamilyId) (bufs : List Buffer)
    (imgs : List (Image × Option ClearValue)) (chains : Chains)
    (submission : ChainSubmission) (r : Except BuildError AnyNode) :
    NodeBuilder.build builder family bufs imgs chains submission = some r →
    (∃ nbufs nimgs, r = AnyNodeDesc.build builder.desc family nbufs nimgs ∧
      ∀ (i : Nat) (iid : ImageId) (nimg : NodeImage) (img : Image × Option ClearValue),
        builder.images[i]? = some iid →
        nimgs[i]? = some nimg →
        imgs[iid.id]? = some img →
        nimg.clear =
          if submission.resourceLinkIndex (imageKey bufs.length iid) = 0 then
            img.2
          else
            none) ∧
    (∀ nb nb' : NodeBuffer, nb.buffer = nb'.buffer → nb.state = nb'.state → nb = nb') := by
  intro h
  constructor
  · unfold NodeBuilder.build at h
    cases hb : collectResolved (resolveBuffer bufs chains submission) builder.buffers with
    | none => rw [hb] at h; simp at h
    | some nbufs =>
      cases hi : collectResolved (resolveImage bufs imgs chains submission) builder.images with
      | none => rw [hb, hi] at h; simp at h
      | some nimgs =>
        rw [hb, hi] at h
        simp at h
        obtain ⟨-, higet⟩ := collectResolved_spec _ _ _ hi
        refine ⟨nbufs, nimgs, h.symm, ?_⟩
        intro i iid nimg img hiid hnimg himg
        have hres : resolveImage bufs imgs chains submission iid = some nimg := by
          have := higet i
          rw [hiid, hnimg] at this
          exact this.symm
        unfold resolveImage at hres
        rw [himg] at hres
        cases hchain : chains.images (imageKey bufs.length iid) with
        | none => rw [hchain] at hres; simp at hres
        | some links =>
          rw [hchain] at hres
          simp only [] at hres
          cases hlink : links[submission.resourceLinkIndex (imageKey bufs.length iid)]? with
          | none => simp [hlink] at hres
          | some link =>
            simp only [hlink, Option.some.injEq] at hres
            rw [← hres]
  · intro nb nb' hbuf hst
    cases nb; cases nb'
    simp_all

/-- Claim C8: the type-erased `AnyNode::run` hands the queue identified by
the given queue id a submission containing exactly the caller's wait
semaphore/stage pairs, exactly the caller's signal semaphores, the submit
obtained from the typed `Node::run`, and the caller's optional fence. -/
theorem run_preserves_waits_signals_fence (n : AnyNode) (qid : QueueId)
    (waits : List (Semaphore × PipelineStage)) (signals : List Semaphore)
    (fence : Option Fence) :
    (AnyNode.run n qid waits signals fence).submission.waits = waits ∧
    (AnyNode.run n qid waits signals fence).submission.signals = signals ∧
    (AnyNode.run n qid waits signals fence).submission.submits = some n.node.run ∧
    (AnyNode.run n qid waits signals fence).fence = fence ∧
    (AnyNode.run n qid waits signals fence).family = qid.family ∧
    (AnyNode.run n qid waits signals fence).queueIndex = qid.index :=
  ⟨rfl, rfl, rfl, rfl, rfl, rfl⟩

/-- Claim C9: the type-erased `AnyNodeDesc::build` succeeds exactly when the
typed `Description::build` succeeds on the same inputs, wraps the typed node
on success, and propagates the typed error unchanged on failure. -/
theorem any_build_forwards_typed_build (desc : NodeDesc)
    (family : QueueFamilyId) (bufs : List NodeBuffer) (imgs : List NodeImage) :
    ((∃ n, AnyNodeDesc.build desc family bufs imgs = Except.ok n) ↔
      (∃ m, desc.build family bufs imgs = Except.ok m)) ∧
    (∀ m, desc.build family bufs imgs = Except.ok m →
      AnyNodeDesc.build desc family bufs imgs = Except.ok (AnyNode.mk m)) ∧
    (∀ e, desc.build family bufs imgs = Except.error e →
      AnyNodeDesc.build desc family bufs imgs = Except.error e) := by
  unfold AnyNodeDesc.build
  cases h : desc.build family bufs imgs <;> simp

/-- Witness for C4 at a concrete family list: the second family qualifies
and its index 9 is selected. -/
theorem family_selects_first_qualifying_witness :
    AnyNodeDesc.family exDesc exFamilies = some 9 :=
  (family_selects_first_qualifying exDesc exFamilies).2
    [Family.mk 1 4] (Family.mk 2 9) [] rfl (by decide) (by decide)

/-- Witness for C7 at a concrete builder: a family qualifies, so `chain`
returns a record carrying the selected family id 9. -/
theorem chain_fatal_iff_unschedulable_witness :
    ∃ r, NodeBuilder.chain exBuilder 0 exFamilies 1 = some r ∧ r.family = 9 :=
  (chain_fatal_iff_unschedulable exBuilder 0 exFamilies 1).2 9 rfl

/-- Witness for C3 at a concrete builder and total buffer count 1. -/
theorem chain_record_pairs_positionally_witness :
    ∃ r, NodeBuilder.chain exBuilder 0 exFamilies 1 = some r ∧
      r.id = 0 ∧
      r.family = 9 ∧
      r.dependencies = exBuilder.dependencies ∧
      (∀ (i : Nat) (bid : BufferId) (st : BufferState),
        exBuilder.buffers[i]? = some bid →
        exBuilder.desc.buffers[i]? = some st →
        r.buffers[i]? = some (ChainId.mk bid.id, st)) ∧
      (∀ (i : Nat) (iid : ImageId) (st : ImageState),
        exBuilder.images[i]? = some iid →
        exBuilder.desc.images[i]? = some st →
        r.images[i]? = some (ChainId.mk (iid.id + 1), st)) :=
  chain_record_pairs_positionally exBuilder 0 exFamilies 1 9 rfl

/-- Witness for C10 at a builder with mismatched declaration counts: the
record truncates to the shorter length on both sides. -/
theorem chain_truncates_to_shorter_witness :
    ∃ r, NodeBuilder.chain exMismatchBuilder 0 exFamilies 1 = some r ∧
      r.buffers.length =
        min exMismatchBuilder.buffers.length exMismatchBuilder.desc.buffers.length ∧
      r.images.length =
        min exMismatchBuilder.images.length exMismatchBuilder.desc.images.length :=
  chain_truncates_to_shorter exMismatchBuilder 0 exFamilies 1 9 rfl

/-- Witness for C5 at total buffer count 1 and concrete identifiers. -/
theorem resource_keys_collision_free_witness :
    (bufferKey (BufferId.mk 0) ≠ imageKey 1 (ImageId.mk 0)) ∧
    (bufferKey (BufferId.mk 0) ≠ bufferKey (BufferId.mk 1)) ∧
    (imageKey 1 (ImageId.mk 0) ≠ imageKey 1 (ImageId.mk 1)) :=
  ⟨(resource_keys_collision_free 1 (BufferId.mk 0) (BufferId.mk 1)
      (ImageId.mk 0) (ImageId.mk 1)).1 (by decide),
    (resource_keys_collision_free 1 (BufferId.mk 0) (BufferId.mk 1)
      (ImageId.mk 0) (ImageId.mk 1)).2.1 (by decide),
    (resource_keys_collision_free 1 (BufferId.mk 0) (BufferId.mk 1)
      (ImageId.mk 0) (ImageId.mk 1)).2.2 (by decide)⟩

/-- Witness for C2 at a concrete builder, schedule and resource slices. -/
theorem build_bindings_match_declarations_witness :
    ∃ nbufs nimgs,
      (Except.ok (AnyNode.mk (Node.mk 11 0)) : Except BuildError AnyNode) =
        AnyNodeDesc.build exBuilder.desc 9 nbufs nimgs ∧
      nbufs.length = exBuilder.buffers.length ∧
      nimgs.length = exBuilder.images.length ∧
      (∀ i : Nat,
        nbufs[i]? = (exBuilder.buffers[i]?).bind (resolveBuffer exBuffers exChains exSubmission)) ∧
      (∀ i : Nat,
        nimgs[i]? =
          (exBuilder.images[i]?).bind (resolveImage exBuffers exImages exChains exSubmission)) :=
  build_bindings_match_declarations exBuilder 9 exBuffers exImages exChains exSubmission
    (Except.ok (AnyNode.mk (Node.mk 11 0))) rfl

/-- Witness for C6 at a concrete builder whose every declared resource
resolves: `build` reaches the description's build. -/
theorem build_fatal_on_out_of_range_link_witness :
    ∃ nbufs nimgs,
      NodeBuilder.build exBuilder 9 exBuffers exImages exChains exSubmission =
        some (AnyNodeDesc.build exBuilder.desc 9 nbufs nimgs) :=
  (build_fatal_on_out_of_range_link exBuilder 9 exBuffers exImages exChains exSubmission).2.2
    (by decide) (by decide)

/-- Witness for C1 at a concrete builder whose single image sits at link
index 0 with configured clear value 99. -/
theorem image_clear_iff_link_index_zero_witness :
    (∃ nbufs nimgs,
      (Except.ok (AnyNode.mk (Node.mk 11 0)) : Except BuildError AnyNode) =
        AnyNodeDesc.build exBuilder.desc 9 nbufs nimgs ∧
      ∀ (i : Nat) (iid : ImageId) (nimg : NodeImage) (img : Image × Option ClearValue),
        exBuilder.images[i]? = some iid →
        nimgs[i]? = some nimg →
        exImages[iid.id]? = some img →
        nimg.clear =
          if exSubmission.resourceLinkIndex (imageKey exBuffers.length iid) = 0 then
            img.2
          else
            none) ∧
    (∀ nb nb' : NodeBuffer, nb.buffer = nb'.buffer → nb.state = nb'.state → nb = nb') :=
  image_clear_iff_link_index_zero exBuilder 9 exBuffers exImages exChains exSubmission
    (Except.ok (AnyNode.mk (Node.mk 11 0))) rfl

/-- Witness for C9 at a description whose typed build fails with error 7:
the type-erased build returns the same error. -/
theorem any_build_forwards_typed_build_witness :
    AnyNodeDesc.build exFailDesc 0 [] [] = Except.error 7 :=
  (any_build_forwards_typed_build exFailDesc 0 [] []).2.2 7 rfl

end Rendy
